import Mathlib

/-!
Shallow embedding of the local conversational-assistant subsystem of the
portfolio chat widget (`src/app/components/ChatWidget.tsx`):

* `buildKnowledgeBase` — pure construction of the topic → text mapping from
  the structured portfolio records;
* `findBestMatch` — ordered keyword matching from a query to a canned answer;
* `WidgetState` plus `submit` / `openPanel` / `closePanel` / `dispose` /
  `advance` — the conversation state machine of the widget, with JavaScript
  timers modelled as explicitly scheduled tasks fired in (deadline, scheduling
  order) order by a deterministic single-threaded event loop.

JavaScript strings become `String`, optional record fields become
`Option String`, `a || b` on strings becomes truthiness-aware selection
(`optTruthy` / `orElseStr`), `Array.prototype.join` becomes `joinWith`,
`String.prototype.includes` becomes `strIncludes`, and `Date.now()` becomes
the `now : Nat` clock of the widget state.
-/

namespace Portfolio

/-! ## Portfolio records (the data snapshot consumed by the widget) -/

structure Skill where
  name : String
  level : Nat
deriving DecidableEq

structure Experience where
  role : String
  company : String
  period : String
deriving DecidableEq

structure Project where
  title : String
deriving DecidableEq

structure EducationEntry where
  degree : String
  institution : String
  year : Option String
deriving DecidableEq

structure Contact where
  email : Option String
  phone : Option String
  location : Option String
deriving DecidableEq

structure Hero where
  name : Option String
  location : Option String
deriving DecidableEq

structure Records where
  hero : Hero
  contact : Contact
  skills : List Skill
  experiences : List Experience
  projects : List Project
  education : List EducationEntry
deriving DecidableEq

/-! ## JavaScript string helpers

Implemented over `String.data` (the character list) so that every operation
is kernel-computable on concrete inputs. -/

/-- ASCII lower-casing of one character, as `String.prototype.toLowerCase`
acts on the ASCII queries involved. -/
def lowerChar (c : Char) : Char :=
  if 65 ≤ c.toNat ∧ c.toNat ≤ 90 then Char.ofNat (c.toNat + 32) else c

/-- `s.toLowerCase()`. -/
def toLowerStr (s : String) : String := String.mk (s.data.map lowerChar)

/-- `s.trim()` — strip leading and trailing whitespace. -/
def trimStr (s : String) : String :=
  String.mk (((s.data.dropWhile Char.isWhitespace).reverse.dropWhile
    Char.isWhitespace).reverse)

/-- `s === ""` (equivalently, falsiness of the string `s`). -/
def strIsEmpty (s : String) : Bool := s.data.isEmpty

/-- JavaScript truthiness of an optional string: `undefined` and `""` are
falsy; a non-empty string is truthy and selects itself. -/
def optTruthy (a : Option String) : Option String :=
  match a with
  | none => none
  | some s => if strIsEmpty s then none else some s

/-- `a || d` where `d` is a (truthy) string literal. -/
def orElseStr (a : Option String) (d : String) : String :=
  match optTruthy a with
  | some v => v
  | none => d

/-- `a || b || d` for optional strings `a`, `b` and literal default `d`. -/
def jsOr3 (a b : Option String) (d : String) : String :=
  match optTruthy a with
  | some v => v
  | none => orElseStr b d

/-- `Array.prototype.join(sep)`. -/
def joinWith (sep : String) : List String → String
  | [] => ""
  | [x] => x
  | x :: y :: rest => x ++ sep ++ joinWith sep (y :: rest)

/-- `pat` occurs as a leading run of `l` (character-list version). -/
def startsWithChars : List Char → List Char → Bool
  | [], _ => true
  | _ :: _, [] => false
  | a :: as, b :: bs => a == b && startsWithChars as bs

/-- `pat` occurs contiguously somewhere in `l`. -/
def hasSubChars (pat : List Char) : List Char → Bool
  | [] => startsWithChars pat []
  | b :: bs => startsWithChars pat (b :: bs) || hasSubChars pat bs

/-- `s.includes(w)` — substring containment, as in JavaScript. -/
def strIncludes (s w : String) : Bool :=
  hasSubChars w.toList s.toList

/-! ## KnowledgeBaseBuilder (`buildKnowledgeBase`, ChatWidget.tsx lines 30–66) -/

structure KnowledgeBase where
  skills : String
  experience : String
  projects : String
  education : String
  contact : String
  location : String
  technologies : String
  availability : String
  strengths : String
  interests : String
deriving DecidableEq

def buildKnowledgeBase (r : Records) : KnowledgeBase where
  skills :=
    if r.skills.isEmpty then "Skills information is not available."
    else "Top skills: " ++
      joinWith ", " ((r.skills.take 8).map
        (fun s => s.name ++ " (" ++ toString s.level ++ "%)")) ++ "."
  experience :=
    if r.experiences.isEmpty then "Experience information is not available."
    else joinWith "; " (r.experiences.map
      (fun e => e.role ++ " at " ++ e.company ++ " (" ++ e.period ++ ")"))
  projects :=
    if r.projects.isEmpty then "Project information is not available."
    else "Projects: " ++
      joinWith "; " ((r.projects.take 6).map (fun p => p.title)) ++ "."
  education :=
    if r.education.isEmpty then "Education information is not available."
    else joinWith "; " (r.education.map
      (fun ed => ed.degree ++ " — " ++ ed.institution ++ " (" ++
        orElseStr ed.year "" ++ ")"))
  contact :=
    if ((optTruthy r.contact.email).isSome || (optTruthy r.contact.phone).isSome) then
      "Contact: " ++
        (match optTruthy r.contact.email with
          | some e => e ++
              (match optTruthy r.contact.phone with
                | some p => " | " ++ p
                | none => "")
          | none => (r.contact.phone).getD "") ++
        ". Location: " ++ jsOr3 r.contact.location r.hero.location "N/A"
    else "Contact information is not available."
  location := jsOr3 r.contact.location r.hero.location "Location not set."
  technologies :=
    if r.skills.isEmpty then "Technologies not listed."
    else joinWith ", " (r.skills.map (fun s => s.name))
  availability :=
    match optTruthy r.contact.email with
    | some e => "Reach out via " ++ e ++ " for opportunities."
    | none => "Availability information not available."
  strengths :=
    if r.skills.isEmpty then "Strengths not available."
    else "Strengths include " ++
      joinWith ", " ((r.skills.take 4).map (fun s => s.name)) ++ "."
  interests := "Passionate about automation, AI, and building reliable systems."

/-! ## IntentMatcher (`findBestMatch`, ChatWidget.tsx lines 77–100) -/

/-- The ordered (topic, keyword list) table; `Object.entries` iterates string
keys in insertion order, so the declaration order is the scan order. -/
def keywordTable : List (String × List String) :=
  [ ("skills", ["skill", "technology", "tech", "know", "proficient", "good at", "expertise"])
  , ("experience", ["work", "job", "experience", "company", "worked", "career", "employment"])
  , ("projects", ["project", "built", "created", "portfolio", "work", "developed"])
  , ("education", ["education", "degree", "study", "university", "learn", "course"])
  , ("contact", ["contact", "reach", "email", "connect", "get in touch", "hire"])
  , ("location", ["location", "where", "based", "live", "city"])
  , ("availability", ["available", "hire", "hiring", "looking", "job"])
  , ("technologies", ["use", "stack", "tools", "framework", "library"])
  , ("strengths", ["strength", "good", "best", "achievement"])
  , ("interests", ["interest", "hobby", "passion", "like", "enjoy"]) ]

/-- `kb[topic]` for the ten fixed topic keys. -/
def kbGet (kb : KnowledgeBase) : String → String
  | "skills" => kb.skills
  | "experience" => kb.experience
  | "projects" => kb.projects
  | "education" => kb.education
  | "contact" => kb.contact
  | "location" => kb.location
  | "technologies" => kb.technologies
  | "availability" => kb.availability
  | "strengths" => kb.strengths
  | "interests" => kb.interests
  | _ => ""

def fallbackResponse : String :=
  "I'd be happy to tell you more! You can ask me about my skills, experience, projects, education, contact information, or availability. What would you like to know?"

def findBestMatch (query : String) (kb : KnowledgeBase) : String :=
  let lowerQuery := toLowerStr query
  match keywordTable.find? (fun p => p.2.any (fun w => strIncludes lowerQuery w)) with
  | some p => kbGet kb p.1
  | none => fallbackResponse

/-! ## ConversationController (`ChatWidget`, ChatWidget.tsx lines 108–225)

The widget's timers (`setTimeout` / `clearTimeout`) are modelled as scheduled
tasks in `pending`, each carrying its deadline and a scheduling sequence
number.  The single-threaded event loop fires due tasks in (deadline, seq)
order, matching JavaScript's timer semantics (same-delay timers fire in
scheduling order). -/

inductive Sender where
  | user
  | bot
deriving DecidableEq

structure Message where
  id : String
  text : String
  sender : Sender
  timestamp : Nat
deriving DecidableEq

inductive TaskKind where
  /-- the `setTimeout` in `handleSend`, closing over the submitted text -/
  | reply (text : String)
  /-- the deferred ornament-reveal `setTimeout` of the `[isOpen]` effect -/
  | ornament
  /-- the 5000 ms hint-expiry `setTimeout` of the mount effect -/
  | hint
deriving DecidableEq

structure ScheduledTask where
  deadline : Nat
  seq : Nat
  kind : TaskKind
deriving DecidableEq

structure WidgetState where
  /-- current `Date.now()` clock -/
  now : Nat
  /-- the memoized `knowledgeBase` -/
  kb : KnowledgeBase
  isOpen : Bool
  showHint : Bool
  showOrnaments : Bool
  messages : List Message
  inputValue : String
  isTyping : Bool
  /-- `hintTimerRef.current` -/
  hintTaskSeq : Option Nat
  /-- the effect-local ornament timer handle `t` -/
  ornamentTaskSeq : Option Nat
  pending : List ScheduledTask
  nextSeq : Nat
  disposed : Bool
  /-- history variable: has the panel ever been opened -/
  openedOnce : Bool
deriving DecidableEq

/-- `clearTimeout` on a stored handle. -/
def cancelTask (h : Option Nat) (pending : List ScheduledTask) : List ScheduledTask :=
  match h with
  | none => pending
  | some n => pending.filter (fun t => t.seq ≠ n)

/-- The seed greeting message created with the initial state
(`hero?.name ?? "Ankush"`; `??` ignores only `undefined`/`null`). -/
def seedMessage (heroName : Option String) (t0 : Nat) : Message :=
  { id := "1"
  , text := "Hi! 👋 I'm " ++ heroName.getD "Ankush" ++
      "'s AI assistant. Ask me anything about skills, experience, projects, or contact details."
  , sender := .bot
  , timestamp := t0 }

/-- Widget mount: initial state plus the mount effect, which shows the hint
and schedules its 5000 ms expiry timer. -/
def mount (r : Records) (t0 : Nat) : WidgetState :=
  { now := t0
  , kb := buildKnowledgeBase r
  , isOpen := false
  , showHint := true
  , showOrnaments := false
  , messages := [seedMessage r.hero.name t0]
  , inputValue := ""
  , isTyping := false
  , hintTaskSeq := some 0
  , ornamentTaskSeq := none
  , pending := [⟨t0 + 5000, 0, .hint⟩]
  , nextSeq := 1
  , disposed := false
  , openedOnce := false }

/-- `handleSend`: early-return on a whitespace-only input; otherwise append
the user message, clear the input, raise the typing flag and schedule the
800 ms reply task closing over the submitted text. -/
def handleSend (s : WidgetState) : WidgetState :=
  if strIsEmpty (trimStr s.inputValue) then s
  else
    { s with
      messages := s.messages ++
        [{ id := toString s.now, text := s.inputValue, sender := .user, timestamp := s.now }]
      inputValue := ""
      isTyping := true
      pending := s.pending ++ [⟨s.now + 800, s.nextSeq, .reply s.inputValue⟩]
      nextSeq := s.nextSeq + 1 }

/-- `submit text` = type `text` into the input box, then `handleSend`. -/
def submit (text : String) (s : WidgetState) : WidgetState :=
  handleSend { s with inputValue := text }

/-- Opening the panel (`setIsOpen true`) runs the `[isOpen]` effects: hide the
hint and clear its timer if still shown; clear any previous ornament timer and
schedule the 250 ms ornament reveal. -/
def openPanel (s : WidgetState) : WidgetState :=
  if s.isOpen then s
  else
    let s1 :=
      if s.showHint then
        { s with
          showHint := false
          pending := cancelTask s.hintTaskSeq s.pending
          hintTaskSeq := none }
      else s
    { s1 with
      isOpen := true
      openedOnce := true
      pending := cancelTask s1.ornamentTaskSeq s1.pending ++
        [⟨s1.now + 250, s1.nextSeq, .ornament⟩]
      ornamentTaskSeq := some s1.nextSeq
      nextSeq := s1.nextSeq + 1 }

/-- Closing the panel: the ornament effect's cleanup clears the pending
ornament timer and the effect body resets `showOrnaments`. -/
def closePanel (s : WidgetState) : WidgetState :=
  if s.isOpen then
    { s with
      isOpen := false
      showOrnaments := false
      pending := cancelTask s.ornamentTaskSeq s.pending
      ornamentTaskSeq := none }
  else s

/-- Unmount: the effect cleanups clear the hint timer and the ornament timer.
The reply `setTimeout` in `handleSend` is never stored, so it is NOT cleared
and stays pending. -/
def dispose (s : WidgetState) : WidgetState :=
  { s with
    disposed := true
    pending := cancelTask s.ornamentTaskSeq (cancelTask s.hintTaskSeq s.pending)
    hintTaskSeq := none
    ornamentTaskSeq := none }

/-- Run one fired timer callback. -/
def fireTask (s : WidgetState) (t : ScheduledTask) : WidgetState :=
  match t.kind with
  | .reply text =>
      { s with
        messages := s.messages ++
          [{ id := toString (s.now + 1)
           , text := findBestMatch text s.kb
           , sender := .bot
           , timestamp := s.now }]
        isTyping := false }
  | .ornament => { s with showOrnaments := true }
  | .hint => { s with showHint := false, hintTaskSeq := none }

/-- The due task with minimal (deadline, seq), if any: the next timer the
event loop runs before time `target`. -/
def pickDue (target : Nat) (pending : List ScheduledTask) : Option ScheduledTask :=
  pending.foldl
    (fun acc t =>
      if t.deadline ≤ target then
        match acc with
        | none => some t
        | some b =>
            if t.deadline < b.deadline ∨ (t.deadline = b.deadline ∧ t.seq < b.seq) then
              some t
            else some b
      else acc)
    none

/-- Fire all due tasks in event-loop order; each firing removes exactly one
task and schedules none, so `pending.length` is enough fuel. -/
def fireLoop : Nat → Nat → WidgetState → WidgetState
  | 0, _, s => s
  | fuel + 1, target, s =>
      match pickDue target s.pending with
      | none => s
      | some t =>
          fireLoop fuel target
            (fireTask
              { s with
                now := max s.now t.deadline
                pending := s.pending.filter (fun u => u.seq ≠ t.seq) }
              t)

/-- Let `δ` time units pass: run every timer due in the window, then land on
the target instant. -/
def advance (δ : Nat) (s : WidgetState) : WidgetState :=
  let target := s.now + δ
  let s' := fireLoop s.pending.length target s
  { s' with now := target }

/-! ## Event traces -/

inductive Event where
  | submit (text : String)
  | openPanel
  | closePanel
  | dispose
  | advance (δ : Nat)
deriving DecidableEq

def step (s : WidgetState) : Event → WidgetState
  | .submit text => Portfolio.submit text s
  | .openPanel => Portfolio.openPanel s
  | .closePanel => Portfolio.closePanel s
  | .dispose => Portfolio.dispose s
  | .advance δ => Portfolio.advance δ s

def run (s : WidgetState) (es : List Event) : WidgetState :=
  es.foldl step s

/-- A concrete records snapshot used to instantiate proved theorems. -/
def sampleRecords : Records :=
  { hero := { name := some "Ankush", location := some "India" }
  , contact := { email := some "ankush@example.com", phone := none, location := none }
  , skills := [⟨"Go", 90⟩, ⟨"Rust", 80⟩]
  , experiences := [⟨"Engineer", "Acme", "2022—2024"⟩]
  , projects := [⟨"Portfolio"⟩]
  , education := [⟨"B.Tech", "IIT", some "2021"⟩] }

/-- The snapshot with every collection empty and every field missing. -/
def emptyRecords : Records :=
  { hero := { name := none, location := none }
  , contact := { email := none, phone := none, location := none }
  , skills := []
  , experiences := []
  , projects := []
  , education := [] }

/-- A snapshot whose only skill record has an empty name. -/
def blankSkillRecords : Records :=
  { hero := { name := none, location := none }
  , contact := { email := none, phone := none, location := none }
  , skills := [⟨"", 0⟩]
  , experiences := []
  , projects := []
  , education := [] }

/-- All ten topic texts of a knowledge base are non-empty. -/
def allTopicsNonEmpty (kb : KnowledgeBase) : Prop :=
  kb.skills ≠ "" ∧ kb.experience ≠ "" ∧ kb.projects ≠ "" ∧ kb.education ≠ "" ∧
  kb.contact ≠ "" ∧ kb.location ≠ "" ∧ kb.technologies ≠ "" ∧
  kb.availability ≠ "" ∧ kb.strengths ≠ "" ∧ kb.interests ≠ ""

instance (kb : KnowledgeBase) : Decidable (allTopicsNonEmpty kb) := by
  unfold allTopicsNonEmpty; infer_instance

/-! ## Helper lemmas on strings and the knowledge base -/

theorem strIsEmpty_false_of_ne {s : String} (h : s ≠ "") : strIsEmpty s = false := by
  cases s with
  | mk data =>
    cases data with
    | nil => exact absurd rfl h
    | cons c cs => rfl

theorem ne_of_strIsEmpty_false {s : String} (h : strIsEmpty s = false) : s ≠ "" := by
  intro he
  subst he
  simp [strIsEmpty] at h

theorem optTruthy_ne {a : Option String} {v : String} (h : optTruthy a = some v) :
    v ≠ "" := by
  cases a with
  | none => simp [optTruthy] at h
  | some s =>
    by_cases hs : strIsEmpty s
    · simp [optTruthy, hs] at h
    · rw [optTruthy, if_neg hs] at h
      cases h
      exact ne_of_strIsEmpty_false (Bool.not_eq_true _ ▸ eq_false_of_ne_true hs)

theorem append_ne_empty_left {a : String} (b : String) (h : a ≠ "") :
    a ++ b ≠ "" := by
  intro he
  apply h
  have hd := congrArg String.data he
  rw [String.data_append] at hd
  exact String.ext (List.append_eq_nil.mp hd).1

theorem append_ne_empty_right (a : String) {b : String} (h : b ≠ "") :
    a ++ b ≠ "" := by
  intro he
  apply h
  have hd := congrArg String.data he
  rw [String.data_append] at hd
  exact String.ext (List.append_eq_nil.mp hd).2

theorem joinWith_ne_empty (sep : String) :
    ∀ (l : List String), l ≠ [] → (∀ x ∈ l, x ≠ "") → joinWith sep l ≠ ""
  | [], h, _ => absurd rfl h
  | [x], _, h2 => by simpa [joinWith] using h2 x (by simp)
  | x :: y :: rest, _, h2 => by
    show x ++ sep ++ joinWith sep (y :: rest) ≠ ""
    exact append_ne_empty_left _ (append_ne_empty_left _ (h2 x (by simp)))

theorem jsOr3_ne_empty (a b : Option String) {d : String} (hd : d ≠ "") :
    jsOr3 a b d ≠ "" := by
  unfold jsOr3 orElseStr
  cases ha : optTruthy a with
  | some v => simpa using optTruthy_ne ha
  | none =>
    cases hb : optTruthy b with
    | some v => simpa using optTruthy_ne hb
    | none => simpa using hd

theorem buildKnowledgeBase_nonempty (r : Records)
    (h : ∀ sk ∈ r.skills, sk.name ≠ "") :
    allTopicsNonEmpty (buildKnowledgeBase r) := by
  refine ⟨?_, ?_, ?_, ?_, ?_, ?_, ?_, ?_, ?_, ?_⟩
  · show (if r.skills.isEmpty then _ else _) ≠ ""
    split
    · decide
    · exact append_ne_empty_left _ (append_ne_empty_left _ (by decide))
  · show (if r.experiences.isEmpty then _ else _) ≠ ""
    split
    · decide
    · next hne =>
      apply joinWith_ne_empty
      · simp only [ne_eq, List.map_eq_nil_iff]
        simpa [List.isEmpty_iff] using hne
      · intro x hx
        rcases List.mem_map.mp hx with ⟨e, _, rfl⟩
        exact append_ne_empty_right _ (by decide)
  · show (if r.projects.isEmpty then _ else _) ≠ ""
    split
    · decide
    · exact append_ne_empty_left _ (append_ne_empty_left _ (by decide))
  · show (if r.education.isEmpty then _ else _) ≠ ""
    split
    · decide
    · next hne =>
      apply joinWith_ne_empty
      · simp only [ne_eq, List.map_eq_nil_iff]
        simpa [List.isEmpty_iff] using hne
      · intro x hx
        rcases List.mem_map.mp hx with ⟨e, _, rfl⟩
        exact append_ne_empty_right _ (by decide)
  · show (if ((optTruthy r.contact.email).isSome || (optTruthy r.contact.phone).isSome)
        then _ else _) ≠ ""
    split
    · exact append_ne_empty_left _
        (append_ne_empty_left _ (append_ne_empty_left _ (by decide)))
    · decide
  · exact jsOr3_ne_empty _ _ (by decide)
  · show (if r.skills.isEmpty then _ else _) ≠ ""
    split
    · decide
    · next hne =>
      apply joinWith_ne_empty
      · simp only [ne_eq, List.map_eq_nil_iff]
        simpa [List.isEmpty_iff] using hne
      · intro x hx
        rcases List.mem_map.mp hx with ⟨sk, hsk, rfl⟩
        exact h sk hsk
  · show (match optTruthy r.contact.email with
      | some e => "Reach out via " ++ e ++ " for opportunities."
      | none => "Availability information not available.") ≠ ""
    cases optTruthy r.contact.email with
    | some e => exact append_ne_empty_right _ (by decide)
    | none => decide
  · show (if r.skills.isEmpty then _ else _) ≠ ""
    split
    · decide
    · exact append_ne_empty_left _ (append_ne_empty_left _ (by decide))
  · show ("Passionate about automation, AI, and building reliable systems." : String) ≠ ""
    decide

/-! ## Claim theorems: knowledge base and matcher -/

/-- C3: the query "I want a job at your company" contains both the
experience keyword "job" (also an availability keyword) and the experience
keyword "company", and `findBestMatch` returns the experience topic's
knowledge-base text for every snapshot, because the experience topic precedes
availability in the declared scan order of `keywordTable`. -/
theorem job_query_resolves_to_experience (r : Records) :
    strIncludes (toLowerStr "I want a job at your company") "job" = true ∧
    strIncludes (toLowerStr "I want a job at your company") "company" = true ∧
    findBestMatch "I want a job at your company" (buildKnowledgeBase r)
      = (buildKnowledgeBase r).experience := by
  refine ⟨by decide, by decide, ?_⟩
  rfl

/-- C4: for any records snapshot whose skill collection is exactly
[{name:"Go",level:90},{name:"Rust",level:80}], matching "what tech do you
know" against the built knowledge base returns exactly
"Top skills: Go (90%), Rust (80%)." -/
theorem skills_snapshot_example (r : Records)
    (h : r.skills = [⟨"Go", 90⟩, ⟨"Rust", 80⟩]) :
    findBestMatch "what tech do you know" (buildKnowledgeBase r)
      = "Top skills: Go (90%), Rust (80%)." := by
  have h1 : findBestMatch "what tech do you know" (buildKnowledgeBase r)
      = (buildKnowledgeBase r).skills := rfl
  have h2 : (buildKnowledgeBase r).skills
      = if r.skills.isEmpty then "Skills information is not available."
        else "Top skills: " ++
          joinWith ", " ((r.skills.take 8).map
            (fun s => s.name ++ " (" ++ toString s.level ++ "%)")) ++ "." := rfl
  rw [h1, h2, h]
  decide

/-- Witness for C4 at the concrete sample snapshot. -/
theorem skills_snapshot_example_witness :
    sampleRecords.skills = [⟨"Go", 90⟩, ⟨"Rust", 80⟩] ∧
    findBestMatch "what tech do you know" (buildKnowledgeBase sampleRecords)
      = "Top skills: Go (90%), Rust (80%)." :=
  ⟨rfl, skills_snapshot_example sampleRecords rfl⟩

/-- C5 counterexample: the claim "non-empty text for all ten topics, for
every records snapshot" fails on the snapshot whose only skill record has an
empty name — the technologies topic text is the bare join of skill names and
is the empty string there. -/
theorem build_technologies_empty_counterexample :
    (buildKnowledgeBase blankSkillRecords).technologies = "" := by decide

/-- C5 (amended): `buildKnowledgeBase` is total, always defines all ten
topics, and every topic's text is non-empty provided every skill record has a
non-empty name (a lone empty-named skill makes the technologies text empty);
in particular this holds when every record collection is empty or missing. -/
theorem build_all_topics_defined_nonempty (r : Records)
    (h : ∀ sk ∈ r.skills, sk.name ≠ "") :
    allTopicsNonEmpty (buildKnowledgeBase r) :=
  buildKnowledgeBase_nonempty r h

/-- Witness for C5 at the all-empty snapshot. -/
theorem build_all_topics_defined_nonempty_witness :
    (∀ sk ∈ emptyRecords.skills, sk.name ≠ "") ∧
    allTopicsNonEmpty (buildKnowledgeBase emptyRecords) :=
  ⟨by simp [emptyRecords], build_all_topics_defined_nonempty emptyRecords (by simp [emptyRecords])⟩

/-- C6 counterexample: the claim "matching against a knowledge base produced
by build always returns a non-empty string" fails: the query "use" resolves
to the technologies topic, whose text is empty for the snapshot whose only
skill record has an empty name. -/
theorem match_empty_counterexample :
    findBestMatch "use" (buildKnowledgeBase blankSkillRecords) = "" := by decide

/-- C6 (amended): `findBestMatch` is total; for every query it returns a
non-empty string provided every skill record of the snapshot has a non-empty
name (otherwise the technologies text can be empty), and for a query with no
keyword overlap such as "asdkjaskdj" it returns the fixed fallback help
string. -/
theorem match_total_and_fallback (q : String) (r : Records)
    (h : ∀ sk ∈ r.skills, sk.name ≠ "") :
    findBestMatch q (buildKnowledgeBase r) ≠ "" ∧
    findBestMatch "asdkjaskdj" (buildKnowledgeBase r) = fallbackResponse := by
  constructor
  · have hkb := buildKnowledgeBase_nonempty r h
    obtain ⟨h₁, h₂, h₃, h₄, h₅, h₆, h₇, h₈, h₉, h₁₀⟩ := hkb
    unfold findBestMatch
    cases hfind : (keywordTable.find?
        fun p => p.2.any fun w => strIncludes (toLowerStr q) w) with
    | none => simp only [hfind]; decide
    | some p =>
      simp only [hfind]
      have hmem := List.mem_of_find?_eq_some hfind
      simp only [keywordTable, List.mem_cons, List.not_mem_nil, or_false] at hmem
      rcases hmem with rfl | rfl | rfl | rfl | rfl | rfl | rfl | rfl | rfl | rfl <;>
        assumption
  · rfl

/-- Witness for C6 at a concrete query and snapshot. -/
theorem match_total_and_fallback_witness :
    (∀ sk ∈ sampleRecords.skills, sk.name ≠ "") ∧
    findBestMatch "hello there" (buildKnowledgeBase sampleRecords) ≠ "" ∧
    findBestMatch "asdkjaskdj" (buildKnowledgeBase sampleRecords) = fallbackResponse :=
  ⟨by decide, match_total_and_fallback "hello there" sampleRecords (by decide)⟩

/-- C10: `buildKnowledgeBase` treats empty-string source fields as missing —
an empty email (with no phone) yields the contact and availability
placeholders, and an empty contact location makes the location topic fall
back to the hero location and then to the "not set" placeholder. -/
theorem empty_string_fields_as_missing (r : Records)
    (h1 : r.contact.email = some "") (h2 : optTruthy r.contact.phone = none)
    (h3 : r.contact.location = some "") :
    (buildKnowledgeBase r).contact = "Contact information is not available." ∧
    (buildKnowledgeBase r).availability = "Availability information not available." ∧
    (buildKnowledgeBase r).location = orElseStr r.hero.location "Location not set." := by
  have he : optTruthy (some "") = none := rfl
  refine ⟨?_, ?_, ?_⟩
  · show (if ((optTruthy r.contact.email).isSome || (optTruthy r.contact.phone).isSome)
        then _ else _) = _
    rw [h1, h2, he]
    rfl
  · show (match optTruthy r.contact.email with
      | some e => "Reach out via " ++ e ++ " for opportunities."
      | none => "Availability information not available.") = _
    rw [h1, he]
  · show jsOr3 r.contact.location r.hero.location "Location not set." = _
    rw [jsOr3, h3, he]

/-- Witness for C10 at a concrete snapshot with empty-string fields. -/
theorem empty_string_fields_as_missing_witness :
    (let r : Records :=
      { hero := { name := none, location := some "India" }
      , contact := { email := some "", phone := none, location := some "" }
      , skills := [], experiences := [], projects := [], education := [] };
    r.contact.email = some "" ∧ optTruthy r.contact.phone = none ∧
      r.contact.location = some "" ∧
      (buildKnowledgeBase r).contact = "Contact information is not available." ∧
      (buildKnowledgeBase r).availability = "Availability information not available." ∧
      (buildKnowledgeBase r).location = orElseStr r.hero.location "Location not set.") := by
  refine ⟨rfl, rfl, rfl, ?_⟩
  exact empty_string_fields_as_missing _ rfl rfl rfl

/-! ## Helper lemmas on the conversation state machine -/

theorem fireTask_openedOnce (s : WidgetState) (t : ScheduledTask) :
    (fireTask s t).openedOnce = s.openedOnce := by
  cases t with
  | mk d n k => cases k <;> rfl

theorem fireTask_showHint_false {s : WidgetState} (t : ScheduledTask)
    (h : s.showHint = false) : (fireTask s t).showHint = false := by
  cases t with
  | mk d n k => cases k <;> simp [fireTask, h]

theorem fireLoop_openedOnce (fuel target : Nat) (s : WidgetState) :
    (fireLoop fuel target s).openedOnce = s.openedOnce := by
  induction fuel generalizing s with
  | zero => rfl
  | succ n ih =>
    rw [fireLoop]
    cases h : pickDue target s.pending with
    | none => rfl
    | some t => rw [ih]; exact fireTask_openedOnce _ _

theorem fireLoop_showHint_false (fuel target : Nat) {s : WidgetState}
    (h : s.showHint = false) : (fireLoop fuel target s).showHint = false := by
  induction fuel generalizing s with
  | zero => exact h
  | succ n ih =>
    rw [fireLoop]
    cases hp : pickDue target s.pending with
    | none => exact h
    | some t => exact ih (fireTask_showHint_false t h)

theorem openPanel_showHint_false (s : WidgetState) (h : s.isOpen = false) :
    (Portfolio.openPanel s).showHint = false := by
  rw [Portfolio.openPanel, if_neg (by simp [h])]
  by_cases hs : s.showHint = true
  · simp [hs]
  · simp only [hs, if_neg]
    simpa using hs

theorem step_openedOnce_mono {s : WidgetState} (e : Event)
    (h : s.openedOnce = true) : (step s e).openedOnce = true := by
  cases e with
  | submit text =>
    show (handleSend _).openedOnce = true
    rw [handleSend]
    split <;> exact h
  | openPanel =>
    show (Portfolio.openPanel s).openedOnce = true
    rw [Portfolio.openPanel]
    split
    · exact h
    · rfl
  | closePanel =>
    show (Portfolio.closePanel s).openedOnce = true
    rw [Portfolio.closePanel]
    split <;> exact h
  | dispose => exact h
  | advance δ =>
    show (fireLoop s.pending.length (s.now + δ) s).openedOnce = true
    rw [fireLoop_openedOnce]
    exact h

theorem step_inv {s : WidgetState} (e : Event)
    (hinv : s.openedOnce = true → s.showHint = false) :
    (step s e).openedOnce = true → (step s e).showHint = false := by
  cases e with
  | submit text =>
    show (handleSend _).openedOnce = true → (handleSend _).showHint = false
    rw [handleSend]
    split <;> exact hinv
  | openPanel =>
    show (Portfolio.openPanel s).openedOnce = true → (Portfolio.openPanel s).showHint = false
    by_cases ho : s.isOpen = true
    · rw [Portfolio.openPanel, if_pos (by simp [ho])]
      exact hinv
    · intro _
      exact openPanel_showHint_false s (by simpa using ho)
  | closePanel =>
    show (Portfolio.closePanel s).openedOnce = true → (Portfolio.closePanel s).showHint = false
    rw [Portfolio.closePanel]
    split <;> exact hinv
  | dispose => exact hinv
  | advance δ =>
    intro h
    have h1 : s.openedOnce = true := by
      have := fireLoop_openedOnce s.pending.length (s.now + δ) s
      exact this ▸ h
    exact fireLoop_showHint_false _ _ (hinv h1)

theorem run_inv {s : WidgetState}
    (hinv : s.openedOnce = true → s.showHint = false) :
    ∀ es, (run s es).openedOnce = true → (run s es).showHint = false := by
  intro es
  induction es generalizing s with
  | nil => exact hinv
  | cons e rest ih => exact ih (step_inv e hinv)

theorem run_openedOnce_mono {s : WidgetState} (h : s.openedOnce = true) :
    ∀ es, (run s es).openedOnce = true := by
  intro es
  induction es generalizing s with
  | nil => exact h
  | cons e rest ih => exact ih (step_openedOnce_mono e h)

/-! ## Claim theorems: conversation controller -/

/-- C8: a submission whose text trims to the empty string is a no-op: the
message log, the typing flag and the set of scheduled tasks are unchanged. -/
theorem empty_submit_noop (s : WidgetState) (text : String)
    (h : trimStr text = "") :
    (submit text s).messages = s.messages ∧
    (submit text s).isTyping = s.isTyping ∧
    (submit text s).pending = s.pending := by
  have he : strIsEmpty (trimStr text) = true := by rw [h]; rfl
  rw [submit, handleSend]
  simp [he]

/-- Witness for C8 at the whitespace-only submission "   ". -/
theorem empty_submit_noop_witness :
    trimStr "   " = "" ∧
    ((submit "   " (mount sampleRecords 0)).messages = (mount sampleRecords 0).messages ∧
     (submit "   " (mount sampleRecords 0)).isTyping = (mount sampleRecords 0).isTyping ∧
     (submit "   " (mount sampleRecords 0)).pending = (mount sampleRecords 0).pending) :=
  ⟨by decide, empty_submit_noop (mount sampleRecords 0) "   " (by decide)⟩

/-- C9: message ids are NOT pairwise distinct: two non-empty submissions at
the same clock value both get the id rendered from that clock value, so the
log of the double submission at time 5 carries the ids ["1", "5", "5"]. -/
theorem message_ids_collide :
    ((submit "projects" (submit "skills" (mount sampleRecords 5))).messages.map
      (fun m => m.id)) = ["1", "5", "5"] ∧
    ¬ List.Pairwise (fun m₁ m₂ : Message => m₁.id ≠ m₂.id)
      (submit "projects" (submit "skills" (mount sampleRecords 5))).messages := by
  constructor
  · decide
  · decide

/-- C2: after `dispose`, the reply task scheduled by an earlier submission is
still pending (only the hint and ornament timers are cleared), and when it
fires it still appends a bot message to the disposed widget's log. -/
theorem dispose_leaves_reply_task_pending :
    (dispose (submit "skills" (mount sampleRecords 0))).disposed = true ∧
    (dispose (submit "skills" (mount sampleRecords 0))).pending
      = [⟨800, 1, TaskKind.reply "skills"⟩] ∧
    (advance 800 (dispose (submit "skills" (mount sampleRecords 0)))).messages.length
      = (dispose (submit "skills" (mount sampleRecords 0))).messages.length + 1 := by
  refine ⟨rfl, by decide, by decide⟩

/-- C1: two non-empty submissions made at the same instant, before either
reply task fires, extend the log in the order user(a), user(b), bot(reply a),
bot(reply b): the reply tasks share a deadline and fire in scheduling
(submission) order. -/
theorem submissions_reply_in_order (s : WidgetState) (a b : String)
    (ha : trimStr a ≠ "") (hb : trimStr b ≠ "") (hp : s.pending = []) :
    ((advance 801 (submit b (submit a s))).messages.map (fun m => (m.sender, m.text)))
      = (s.messages.map (fun m => (m.sender, m.text))) ++
        [(Sender.user, a), (Sender.user, b),
         (Sender.bot, findBestMatch a s.kb), (Sender.bot, findBestMatch b s.kb)] := by
  have ha' := strIsEmpty_false_of_ne ha
  have hb' := strIsEmpty_false_of_ne hb
  have hseq : ¬ (s.nextSeq + 1 < s.nextSeq) := by omega
  have hseqne : s.nextSeq + 1 ≠ s.nextSeq := by omega
  have hle : s.now + 800 ≤ s.now + 801 := by omega
  have hmax : max s.now (s.now + 800) = s.now + 800 := Nat.max_eq_right (by omega)
  simp [submit, handleSend, ha', hb', hp, advance, fireLoop, pickDue, fireTask,
    hle, hseq, hseqne, hmax, Nat.lt_irrefl]

/-- Witness for C1: the rapid double submission skills-then-projects on the
mounted widget (after the hint window) yields user, user, bot(skills reply),
bot(projects reply). -/
theorem submissions_reply_in_order_witness :
    trimStr "skills" ≠ "" ∧ trimStr "projects" ≠ "" ∧
    (advance 5000 (mount sampleRecords 0)).pending = [] ∧
    ((advance 801 (submit "projects" (submit "skills"
        (advance 5000 (mount sampleRecords 0))))).messages.map
        (fun m => (m.sender, m.text)))
      = ((advance 5000 (mount sampleRecords 0)).messages.map
          (fun m => (m.sender, m.text))) ++
        [(Sender.user, "skills"), (Sender.user, "projects"),
         (Sender.bot, findBestMatch "skills" (advance 5000 (mount sampleRecords 0)).kb),
         (Sender.bot, findBestMatch "projects" (advance 5000 (mount sampleRecords 0)).kb)] :=
  ⟨by decide, by decide, by decide,
   submissions_reply_in_order (advance 5000 (mount sampleRecords 0)) "skills" "projects"
     (by decide) (by decide) (by decide)⟩

/-- C7: after mount the hint is visible; opening the panel within the
5000-unit window hides the hint immediately and cancels the hint task; and
in every state reachable after the panel has been opened once, the hint stays
hidden forever. -/
theorem hint_lifecycle (r : Records) (t0 δ : Nat) (hδ : δ < 5000)
    (es es' : List Event) (hopen : (run (mount r t0) es).openedOnce = true) :
    (mount r t0).showHint = true ∧
    (Portfolio.openPanel (advance δ (mount r t0))).showHint = false ∧
    ((Portfolio.openPanel (advance δ (mount r t0))).pending.all
      (fun t => t.kind ≠ TaskKind.hint)) = true ∧
    (run (mount r t0) (es ++ es')).showHint = false := by
  have hle : ¬ (t0 + 5000 ≤ t0 + δ) := by omega
  have hadv : advance δ (mount r t0) = { mount r t0 with now := t0 + δ } := by
    simp [advance, fireLoop, mount, pickDue, hle]
  refine ⟨rfl, ?_, ?_, ?_⟩
  · exact openPanel_showHint_false _ (by rw [hadv]; rfl)
  · rw [hadv]
    simp [Portfolio.openPanel, cancelTask, mount]
  · rw [run, List.foldl_append]
    have h1 : (run (run (mount r t0) es) es').openedOnce = true :=
      run_openedOnce_mono hopen es'
    have h2 := run_inv (s := run (mount r t0) es)
      (run_inv (s := mount r t0) (fun hfalse => by simp [mount] at hfalse) es) es'
    exact h2 h1

/-- Witness for C7: open the panel at once, then let more than 5000 units
pass; the hint stays hidden. -/
theorem hint_lifecycle_witness :
    (3 < 5000 ∧ (run (mount sampleRecords 0) [Event.openPanel]).openedOnce = true) ∧
    ((mount sampleRecords 0).showHint = true ∧
     (Portfolio.openPanel (advance 3 (mount sampleRecords 0))).showHint = false ∧
     ((Portfolio.openPanel (advance 3 (mount sampleRecords 0))).pending.all
       (fun t => t.kind ≠ TaskKind.hint)) = true ∧
     (run (mount sampleRecords 0) ([Event.openPanel] ++ [Event.advance 6000])).showHint = false) :=
  ⟨⟨by decide, by decide⟩,
   hint_lifecycle sampleRecords 0 3 (by decide) [Event.openPanel] [Event.advance 6000]
     (by decide)⟩

end Portfolio
